import Mathlib

/-!
Verification development for the session-lifecycle / analysis-reconciliation engine.

The TypeScript sources are embedded shallowly:

* text is `List Char` (JS strings restricted to their code points; `String.data`
  turns a Lean literal into that form);
* JS `number` is `ℚ` (the code only adds, multiplies, divides, compares and
  floors; IEEE-754 rounding, `NaN` and `Infinity` are outside the embedding);
* `Math.floor` / `Math.ceil` / `Math.round` are `jsFloor` / `jsCeil` / `jsRound`
  (floor division on `ℚ`, `Math.round x = floor (x + 1/2)` as in JS);
* optional / possibly-`undefined` values are `Option`;
* the regex `new RegExp('\\b' + escaped + '\\b', 'gi')` used for word counting
  matches a literal phrase delimited by word boundaries; `countOcc` counts the
  positions where such a boundary-delimited occurrence starts (the phrases in
  the fixed lists cannot produce overlapping self-matches, so this equals the
  non-overlapping `String.match` count).
-/

/-- JS word character class `\w` = `[A-Za-z0-9_]` (ASCII, as produced by the
transcripts in scope). Used to model the regex word boundary `\b`. -/
def isWordChar (c : Char) : Bool :=
  (c.isAlpha || c.isDigit) || c == '_'

/-- Whitespace as stripped by `String.trim` / split on `\s` (ASCII subset). -/
def isWsChar (c : Char) : Bool :=
  c == ' ' || c == '\t' || c == '\n' || c == '\r'

/-- `String.toLowerCase` on one character (ASCII range, identity elsewhere). -/
def lowerChar (c : Char) : Char :=
  if 65 ≤ c.toNat ∧ c.toNat ≤ 90 then Char.ofNat (c.toNat + 32) else c

/-- `String.toLowerCase`. -/
def lowerStr (s : List Char) : List Char := s.map lowerChar

/-- `Math.floor` on a rational. -/
def jsFloor (q : ℚ) : ℤ := Int.fdiv q.num q.den

/-- `Math.ceil` on a rational. -/
def jsCeil (q : ℚ) : ℤ := -jsFloor (-q)

/-- `Math.round` on a rational (JS rounds half toward positive infinity). -/
def jsRound (q : ℚ) : ℤ := jsFloor (q + 1/2)

/-- JS `a || dflt` for an optional number: `undefined` and `0` are falsy. -/
def jsOr (d : Option ℚ) (dflt : ℚ) : ℚ :=
  match d with
  | none => dflt
  | some x => if x = 0 then dflt else x

/-- Head-character word-ness; the out-of-string side of a `\b` test is
non-word. -/
def headWord (s : List Char) : Bool :=
  match s with
  | [] => false
  | c :: _ => isWordChar c

/-- A boundary-delimited occurrence of the phrase `p` starting at the head of
`s`, where `prevW` says whether the character just before `s` is a word
character: `p` must literally occur, with a `\b` boundary on each side. -/
def matchHere (p s : List Char) (prevW : Bool) : Bool :=
  p.isPrefixOf s && (prevW != headWord p) && (headWord p.reverse != headWord (s.drop p.length))

/-- Number of boundary-delimited occurrences of `p` in the suffix `s`, when the
character preceding `s` has word-ness `prevW`. -/
def countFrom (p : List Char) (prevW : Bool) : List Char → ℕ
  | [] => 0
  | c :: rest => (if matchHere p (c :: rest) prevW then 1 else 0) + countFrom p (isWordChar c) rest

/-- Occurrence count of `text.match(new RegExp('\\b'+p+'\\b','gi'))` on `s`
(the start of the string behaves as a non-word position). -/
def countOcc (p s : List Char) : ℕ := countFrom p false s

/-- `String.prototype.includes` (substring test). -/
def hasSub (p : List Char) : List Char → Bool
  | [] => p.isEmpty
  | c :: t => p.isPrefixOf (c :: t) || hasSub p t

/-- `Array.prototype.join(' ')`. -/
def joinSp : List (List Char) → List Char
  | [] => []
  | [m] => m
  | m :: rest => m ++ ' ' :: joinSp rest

/-- `String.prototype.trim`: strip leading and trailing whitespace. -/
def trimChars (s : List Char) : List Char :=
  ((s.dropWhile isWsChar).reverse.dropWhile isWsChar).reverse

/-- `text.split(/\s+/).filter(w => w.length > 0).length`: the number of maximal
non-whitespace runs (`prevWs` tracks whether the previous character was
whitespace / the start of the string). -/
def wordCountFrom (prevWs : Bool) : List Char → ℕ
  | [] => 0
  | c :: rest =>
      (if isWsChar c then 0 else if prevWs then 1 else 0) + wordCountFrom (isWsChar c) rest

/-- Word count of a string, as computed by `calculateSpeakingPace`. -/
def wordCount (s : List Char) : ℕ := wordCountFrom true s

/-! ## `frontend/lib/analysis-utils.ts` -/

/-- One transcript entry (`TranscriptMessage`). The optional `timestamp` field
is never read by the code under verification and is omitted. -/
structure TranscriptMessage where
  speaker : List Char
  message : List Char
deriving DecidableEq, Repr

/-- `AnalysisMetrics`. -/
structure Metrics where
  talkTimeRatio : ℚ
  fillerWordsCount : ℕ
  speakingPaceWpm : ℤ
  sentimentScore : ℚ
deriving DecidableEq, Repr

/-- `extractTranscriptText`: join the messages with single spaces and trim. -/
def extractTranscriptText (transcript : List TranscriptMessage) : List Char :=
  if transcript = [] then []
  else trimChars (joinSp (transcript.map (·.message)))

/-- Speaker filter used by `calculateTalkTimeRatio`. -/
def isUserSpeaker (speaker : List Char) : Bool :=
  hasSub "user".data (lowerStr speaker) || hasSub "you".data (lowerStr speaker) ||
    hasSub "speaker_1".data (lowerStr speaker)

/-- `calculateTalkTimeRatio`. -/
def calculateTalkTimeRatio (transcript : List TranscriptMessage) : ℚ :=
  if transcript = [] then 0
  else
    let userMessageCount := (transcript.filter (fun m => isUserSpeaker m.speaker)).length
    let totalMessages := transcript.length
    if 0 < totalMessages then (userMessageCount : ℚ) / (totalMessages : ℚ) else 0

/-- The fixed filler-phrase list of `countFillerWords`. -/
def fillerWords : List (List Char) :=
  ["um", "uh", "er", "ah", "like", "you know", "sort of", "kind of",
   "basically", "actually", "literally", "totally", "right?", "okay?",
   "so", "well", "i mean", "you see", "let me think"].map String.data

/-- `countFillerWords`: sum of the boundary-delimited occurrence counts of each
filler phrase in the lowercased transcript text. -/
def countFillerWords (transcript : List TranscriptMessage) : ℕ :=
  let text := lowerStr (extractTranscriptText transcript)
  (fillerWords.map (fun p => countOcc p text)).sum

/-- Positive keyword list of `calculateSentimentScore`. -/
def positiveWords : List (List Char) :=
  ["great", "excellent", "good", "amazing", "wonderful", "fantastic",
   "perfect", "love", "like", "enjoy", "happy", "pleased", "satisfied",
   "confident", "excited", "interested", "impressive", "outstanding"].map String.data

/-- Negative keyword list of `calculateSentimentScore`. -/
def negativeWords : List (List Char) :=
  ["bad", "terrible", "awful", "horrible", "hate", "dislike", "angry",
   "frustrated", "disappointed", "concerned", "worried", "difficult",
   "problem", "issue", "challenging", "confusing", "unclear", "wrong"].map String.data

/-- `calculateSentimentScore`. -/
def calculateSentimentScore (transcript : List TranscriptMessage) : ℚ :=
  let text := lowerStr (extractTranscriptText transcript)
  let positiveCount := (positiveWords.map (fun p => countOcc p text)).sum
  let negativeCount := (negativeWords.map (fun p => countOcc p text)).sum
  if positiveCount + negativeCount = 0 then 1/2
  else (positiveCount : ℚ) / ((positiveCount : ℚ) + (negativeCount : ℚ))

/-- `calculateSpeakingPace`. -/
def calculateSpeakingPace (transcript : List TranscriptMessage) (durationSeconds : ℚ) : ℤ :=
  if durationSeconds = 0 ∨ durationSeconds ≤ 0 then 0
  else
    let wc := wordCount (extractTranscriptText transcript)
    let durationMinutes := durationSeconds / 60
    if 0 < durationMinutes then jsRound ((wc : ℚ) / durationMinutes) else 0

/-- `generateAnalysisMetrics`. -/
def generateAnalysisMetrics (transcript : List TranscriptMessage) (durationSeconds : ℚ) :
    Metrics where
  talkTimeRatio := calculateTalkTimeRatio transcript
  fillerWordsCount := countFillerWords transcript
  speakingPaceWpm := calculateSpeakingPace transcript durationSeconds
  sentimentScore := calculateSentimentScore transcript

/-- `createMockTranscript`. -/
def createMockTranscript : List TranscriptMessage :=
  [⟨"user".data, ("Hi there! I'm really excited to talk about our new product. It's absolutely amazing and I think you'll love it.").data⟩,
   ⟨"client".data, "Tell me more about it. What makes it special?".data⟩,
   ⟨"user".data, "Well, um, it's like really good because, you know, it solves the main problem that, uh, most people have.".data⟩,
   ⟨"client".data, "I see. Can you be more specific about the problem it solves?".data⟩,
   ⟨"user".data, "Absolutely! It basically saves time and, sort of, makes everything more efficient for your team.".data⟩]

/-! ## `lib/session-utils` (src/unnamed/part_000) -/

/-- `normalizeSessionStatus`: the `hasAnalysis` flag is an optional boolean
(`undefined` is falsy, exactly like `false`). -/
def normalizeSessionStatus (dbStatus : List Char) (hasAnalysis : Option Bool) : List Char :=
  if dbStatus = "analyzed".data then "completed".data
  else if dbStatus = "completed".data then
    (if hasAnalysis = some true then "completed".data else "processing".data)
  else if dbStatus = "active".data then "in_progress".data
  else if dbStatus = "processing".data then "processing".data
  else if dbStatus = "demo".data then "demo".data
  else if dbStatus = "archived".data then "archived".data
  else "in_progress".data

/-- `normalizeScore`: an absent score (not a number and not exactly `0`)
normalizes to `0`; the guard lets `0` itself through. -/
def normalizeScore (score : Option ℚ) (fromScale toScale : ℕ) : ℚ :=
  match score with
  | none => 0
  | some s =>
      if fromScale = toScale then s
      else if fromScale = 10 ∧ toScale = 100 then s * 10
      else if fromScale = 100 ∧ toScale = 10 then s / 10
      else s

/-- `isDemoSession`: `sessionId` is optional (`sessionId?.startsWith` is falsy
when the id is absent). -/
def isDemoSession (sessionId : Option (List Char)) (status : Option (List Char)) : Bool :=
  if status = some "demo".data then true
  else if (match sessionId with | some s => ("demo-".data).isPrefixOf s | none => false) then true
  else if (match sessionId with | some s => ("temp-".data).isPrefixOf s | none => false) then true
  else if (match sessionId with | some s => hasSub "demo".data s | none => false) then true
  else false

/-! ## Data model of the analyze / end-session routes -/

/-- Requester identity context (`userInfo` in the request bodies). -/
structure UserInfo where
  name : List Char
  company : List Char
  role : List Char
deriving DecidableEq, Repr

/-- A `{score, analysis}` pair (`objectionHandling` / `closingEffectiveness`). -/
structure ScorePart where
  score : ℚ
  analysis : List Char
deriving DecidableEq, Repr

/-- A provider reply that survived `parseAnalysisResponse`: the mandatory
fields (`overallScore`, `strengths`, `areasForImprovement`) are present, the
remaining fields read by the handler are optional. Fields of the provider JSON
that the handler never reads do not influence control flow and are not
modelled. -/
structure ParsedAnalysis where
  overallScore : ℚ
  strengths : List (List Char)
  areasForImprovement : List (List Char)
  title : Option (List Char)
  detailedAnalysis : Option (List Char)
  objectionHandling : Option ScorePart
  closingEffectiveness : Option ScorePart
deriving DecidableEq, Repr

/-- The `finalAnalysis` object built on the successful provider path: the
parsed analysis spread together with `id := sessionId` and the duration in
minutes (`Math.floor((duration || 0) / 60)`). The wall-clock `date` field is
not modelled. -/
structure FinalAnalysis where
  parsed : ParsedAnalysis
  id : List Char
  durationMinutes : ℤ
deriving DecidableEq, Repr

/-- The object returned by `generateMockAnalysis`. The wall-clock `date` field
is not modelled; `id` is `demo-` followed by the `Date.now()` value. -/
structure MockAnalysis where
  id : List Char
  title : List Char
  duration : ℕ
  overallScore : ℚ
  strengths : List (List Char)
  areasForImprovement : List (List Char)
  effectiveTechniques : List (List Char)
  techniquesNeedingWork : List (List Char)
  objectionHandling : ScorePart
  closingEffectiveness : ScorePart
  keyRecommendations : List (List Char)
  detailedAnalysis : List Char
deriving DecidableEq, Repr

/-- One canned scenario of `generateMockAnalysis` (the per-call fields `id`,
`duration` and `date` are added when the result object is assembled). -/
structure MockScenario where
  title : List Char
  overallScore : ℚ
  strengths : List (List Char)
  areasForImprovement : List (List Char)
  effectiveTechniques : List (List Char)
  techniquesNeedingWork : List (List Char)
  objectionHandling : ScorePart
  closingEffectiveness : ScorePart
  keyRecommendations : List (List Char)
  detailedAnalysis : List Char
deriving DecidableEq, Repr

/-- The draws of `Math.random()` / `Date.now()` made by one run of
`generateMockAnalysis`, supplied as an oracle: `pickSecond` selects the
scenario, `r1`/`r2` drive the two scenario scores, `rDur` the fake duration,
`now` the `Date.now()` timestamp. -/
structure MockRand where
  pickSecond : Bool
  r1 : ℕ
  r2 : ℕ
  rDur : ℕ
  now : ℕ
deriving DecidableEq, Repr

/-- `name.split(' ')[0]`. -/
def firstWord (s : List Char) : List Char := s.takeWhile (fun c => !(c == ' '))

/-- First canned scenario (`Sales Discovery Call Analysis`);
`Math.floor(Math.random() * 3 + 5)` ranges over `{5, 6, 7}`. -/
def mockScenario1 (userName : List Char) (r1 : ℕ) : MockScenario where
  title := "Sales Discovery Call Analysis".data
  overallScore := ((5 + r1 % 3 : ℕ) : ℚ)
  strengths :=
    ["Initiated the conversation with a friendly greeting".data,
     "Expressed interest in understanding the prospect's needs".data,
     "Maintained professional tone throughout the interaction".data,
     "Showed enthusiasm about the product offering".data]
  areasForImprovement :=
    ["Lack of detailed questioning to uncover deeper needs".data,
     "Did not provide specific information about the courses".data,
     "No attempt to handle potential objections or concerns".data,
     "Missed opportunity to build rapport by not engaging further".data]
  effectiveTechniques :=
    ["Friendly greeting and introduction".data,
     "Open-ended needs assessment questions".data]
  techniquesNeedingWork :=
    ["Needs discovery".data, "Product presentation".data,
     "Objection handling".data, "Closing techniques".data]
  objectionHandling :=
    ⟨3, ("The conversation did not reach a stage where objections were handled, indicating a lack of depth in the sales process.").data⟩
  closingEffectiveness :=
    ⟨2, ("There were no closing attempts made during this conversation, suggesting a missed opportunity to advance the sales process.").data⟩
  keyRecommendations :=
    ["Ask open-ended questions to better understand the prospect's specific needs and challenges".data,
     "Provide detailed information about products that align with the prospect's interests".data,
     "Engage more with the prospect to build rapport and establish a connection".data,
     "Prepare to handle potential objections by anticipating common concerns".data,
     "Develop a closing strategy that encourages the prospect to take action".data]
  detailedAnalysis :=
    "The salesperson, ".data ++ userName ++
    (", started the conversation with a friendly greeting, which is a positive approach to establishing initial rapport. However, the interaction lacked depth in terms of needs discovery. ").data ++
    userName ++
    (" did not ask further questions to explore the prospect's specific challenges or goals, which would have provided valuable insights for tailoring the presentation. Additionally, there was no detailed information shared about the offerings, leaving the prospect without a clear understanding of the value proposition. The conversation also missed opportunities to build rapport by not engaging with the prospect's introduction or expressing empathy towards their business goals. Overall, the interaction could benefit from more active listening, detailed questioning, and a structured approach to presenting solutions and handling objections.").data

/-- Second canned scenario (`Product Demo Session Analysis`);
`Math.floor(Math.random() * 3 + 6)` ranges over `{6, 7, 8}`. -/
def mockScenario2 (userName : List Char) (r2 : ℕ) : MockScenario where
  title := "Product Demo Session Analysis".data
  overallScore := ((6 + r2 % 3 : ℕ) : ℚ)
  strengths :=
    ["Strong product knowledge demonstration".data,
     "Clear explanation of key features and benefits".data,
     "Good use of storytelling to illustrate value".data,
     "Maintained engagement throughout the presentation".data]
  areasForImprovement :=
    ["Limited customization based on prospect's specific needs".data,
     "Could have asked more qualifying questions".data,
     "Presentation was too feature-focused rather than benefit-focused".data,
     "No clear next steps defined at the end".data]
  effectiveTechniques :=
    ["Product demonstration with examples".data,
     "Benefit-focused messaging".data,
     "Storytelling approach".data]
  techniquesNeedingWork :=
    ["Needs assessment".data, "Question-based selling".data,
     "Trial closing".data, "Next step definition".data]
  objectionHandling :=
    ⟨6, ("Some objections were addressed but could have been handled more systematically with better preparation.").data⟩
  closingEffectiveness :=
    ⟨4, ("Limited closing attempts were made. The conversation ended without a clear commitment or next step.").data⟩
  keyRecommendations :=
    ["Customize the demo based on the prospect's specific use case and industry".data,
     "Ask discovery questions before diving into the product demonstration".data,
     "Focus more on business outcomes rather than technical features".data,
     "Prepare and practice common objection responses".data,
     "Always conclude with a clear call-to-action and next steps".data]
  detailedAnalysis :=
    "During this product demonstration, ".data ++ userName ++
    (" showed strong product knowledge and was able to articulate key features effectively. The presentation had good energy and maintained the prospect's attention throughout. However, the demo felt somewhat generic and could have been better tailored to the specific prospect's needs and use case. ").data ++
    userName ++
    (" spent considerable time on features but could have connected these more directly to business outcomes and ROI. The session would have benefited from more discovery questions at the beginning to understand the prospect's current challenges and desired outcomes. While some objections were addressed, a more structured approach to objection handling would have been more effective. The session ended without a clear next step, which represents a missed opportunity to advance the sales process.").data

/-- `generateMockAnalysis`: pick one of the two canned scenarios and assemble a
complete mock `AnalysisResult`; `Math.floor(Math.random() * 10 + 15)` ranges
over `{15, ..., 24}`. -/
def generateMockAnalysis (userInfo : Option UserInfo) (r : MockRand) : MockAnalysis :=
  let userName := match userInfo with
    | some u => if firstWord u.name = [] then "the salesperson".data else firstWord u.name
    | none => "the salesperson".data
  let scenario := if r.pickSecond then mockScenario2 userName r.r2 else mockScenario1 userName r.r1
  { id := "demo-".data ++ (Nat.repr r.now).data
    title := scenario.title
    duration := 15 + r.rDur % 10
    overallScore := scenario.overallScore
    strengths := scenario.strengths
    areasForImprovement := scenario.areasForImprovement
    effectiveTechniques := scenario.effectiveTechniques
    techniquesNeedingWork := scenario.techniquesNeedingWork
    objectionHandling := scenario.objectionHandling
    closingEffectiveness := scenario.closingEffectiveness
    keyRecommendations := scenario.keyRecommendations
    detailedAnalysis := scenario.detailedAnalysis }

/-- The request body of the analyze route, together with the two headers the
handler reads. A transcript is an array, a legacy bare string, or absent. -/
inductive TranscriptInput
| str (s : List Char)
| arr (t : List TranscriptMessage)
deriving DecidableEq, Repr

structure AnalyzeRequest where
  sessionId : List Char
  transcript : Option TranscriptInput
  duration : Option ℚ
  userInfo : Option UserInfo
  authHeader : Option (List Char)
  serverSecretHeader : Option (List Char)
deriving DecidableEq, Repr

/-- Outcomes of the three store lookups on the bearer-credential path:
`supabase.auth.getUser`, the profile fetch, and the session-ownership check
(`session.profile_id === profile.id`). -/
structure AuthOracle where
  userOk : Bool
  profileOk : Bool
  sessionOwnerOk : Bool
deriving DecidableEq, Repr

/-- Behaviour of the qualitative-analysis provider on this call:
`unreachable` throws (network error, its message is the thrown text), `empty`
returns a completion without content (the handler then throws
`'No analysis generated by OpenAI'`), `content p` returns text whose
`parseAnalysisResponse` result is `p` (`none` when the reply is unparseable or
misses a mandatory field). -/
inductive ProviderOutcome
| unreachable (msg : List Char)
| empty
| content (parsed : Option ParsedAnalysis)
deriving DecidableEq, Repr

/-- Environment of one analyze call: configuration, the store/provider
oracles, the random draws, and whether the `analysis_results` upsert
succeeds. -/
structure AnalyzeEnv where
  openaiKey : Option (List Char)
  serverSecret : Option (List Char)
  auth : AuthOracle
  provider : ProviderOutcome
  rnd : MockRand
  analysisUpsertOk : Bool
deriving DecidableEq, Repr

/-- The analysis object of a response: a mock analysis or a provider-derived
`finalAnalysis`. -/
inductive AnalysisPayload
| mock (a : MockAnalysis)
| real (fa : FinalAnalysis)
deriving DecidableEq, Repr

/-- A response of the analyze route: an error status with a message, or an
HTTP-200 JSON body `{analysis, metrics?, isDemo, error?}`. -/
inductive AnalyzeResult
| err (status : ℕ) (msg : List Char)
| ok (analysis : AnalysisPayload) (metrics : Option Metrics) (isDemo : Bool)
    (errMsg : Option (List Char))
deriving DecidableEq, Repr

/-- One row of the `analysis_results` table (the fixed metadata columns
`analysis_type`, `provider`, `version`, `confidence_score` are constants and
not modelled). -/
structure AnalysisRow where
  session_id : List Char
  results : FinalAnalysis
deriving DecidableEq, Repr

/-- Modelled from the spec (§6, store interface): the store's atomic
`upsert(..., { onConflict: 'session_id' })` is an insert-or-replace keyed by
the unique `session_id` column — the row replaces an existing row with the
same key and is appended otherwise. The supabase client implementing it is an
external collaborator of the repository. -/
def upsertBySession (db : List AnalysisRow) (row : AnalysisRow) : List AnalysisRow :=
  if db.any (fun r => r.session_id == row.session_id) then
    db.map (fun r => if r.session_id == row.session_id then row else r)
  else db ++ [row]

/-- `serverSecret && serverSecret === process.env.SERVER_SECRET`. -/
def secretOk (hdr env : Option (List Char)) : Bool :=
  match hdr, env with
  | some h, some e => h == e
  | _, _ => false

/-- Transcript normalization (part_002 lines 165-176): a bare string becomes a
single `user` message whose text is the string itself; an array is taken as is
with its text extracted; anything else yields an empty transcript and empty
text. -/
def normalizeTranscript : Option TranscriptInput → List TranscriptMessage × List Char
  | some (.str s) => ([⟨"user".data, s⟩], s)
  | some (.arr t) => (t, extractTranscriptText t)
  | none => ([], [])

/-- The authorization gate lets the request through: either the server-secret
header matches, or a bearer header is present and all three store checks
succeed. -/
def authPasses (env : AnalyzeEnv) (req : AnalyzeRequest) : Bool :=
  secretOk req.serverSecretHeader env.serverSecret ||
    (req.authHeader.isSome && (env.auth.userOk && env.auth.profileOk && env.auth.sessionOwnerOk))

/-- `finalAnalysis`: the parsed analysis plus `id` and
`duration: Math.floor((duration || 0) / 60)`. -/
def mkFinalAnalysis (parsed : ParsedAnalysis) (sessionId : List Char) (duration : Option ℚ) :
    FinalAnalysis :=
  ⟨parsed, sessionId, jsFloor (jsOr duration 0 / 60)⟩

/-- The outermost `catch` of the analyze handler: any exception is converted
into an HTTP-200 body with a mock analysis (no `userInfo`), metrics computed
from the mock transcript with duration `300`, `isDemo: true` and the error
message. -/
def catastrophicResponse (errMsg : List Char) (rnd : MockRand) : AnalyzeResult :=
  .ok (.mock (generateMockAnalysis none rnd))
    (some (generateAnalysisMetrics createMockTranscript 300)) true (some errMsg)

/-- `Array.isArray(transcript) ? transcript : createMockTranscript()` on the
demo short-circuit path: a bare-string or absent transcript is replaced by the
mock transcript. -/
def demoTranscriptArray : Option TranscriptInput → List TranscriptMessage
  | some (.arr t) => t
  | _ => createMockTranscript

/-- The rows of the `analysis_results` table that belong to one session id. -/
def rowsFor (db : List AnalysisRow) (sid : List Char) : List AnalysisRow :=
  db.filter (fun r => r.session_id == sid)

/-- Every mandatory and optional field of a mock AnalysisResult is populated:
non-empty texts, non-empty item lists whose entries are all non-empty, and
sub-analyses with non-empty text. -/
def fullyPopulated (a : MockAnalysis) : Bool :=
  !a.id.isEmpty && !a.title.isEmpty &&
    (!a.strengths.isEmpty && a.strengths.all (fun s => !s.isEmpty)) &&
    (!a.areasForImprovement.isEmpty && a.areasForImprovement.all (fun s => !s.isEmpty)) &&
    (!a.effectiveTechniques.isEmpty && a.effectiveTechniques.all (fun s => !s.isEmpty)) &&
    (!a.techniquesNeedingWork.isEmpty && a.techniquesNeedingWork.all (fun s => !s.isEmpty)) &&
    !a.objectionHandling.analysis.isEmpty && !a.closingEffectiveness.analysis.isEmpty &&
    (!a.keyRecommendations.isEmpty && a.keyRecommendations.all (fun s => !s.isEmpty)) &&
    !a.detailedAnalysis.isEmpty

/-- The analyze handler after the authorization gate (part_002 lines 156-364):
missing OpenAI key → mock analysis without metrics; short/empty transcript →
mock analysis with mock-transcript metrics; otherwise call the provider:
a throw falls to the outermost catch, an unparseable reply falls to the inner
catch (mock analysis, real-transcript metrics), and a parsed reply is returned
as `finalAnalysis` and upserted into `analysis_results` (best effort, never
for `demo-` ids). -/
def analyzeAuthed (env : AnalyzeEnv) (req : AnalyzeRequest) (db : List AnalysisRow) :
    AnalyzeResult × List AnalysisRow :=
  match env.openaiKey with
  | none => (.ok (.mock (generateMockAnalysis req.userInfo env.rnd)) none true none, db)
  | some _ =>
    let transcriptArray := (normalizeTranscript req.transcript).1
    let transcriptText := (normalizeTranscript req.transcript).2
    if transcriptText = [] ∨ transcriptText.length < 20 then
      let metrics := generateAnalysisMetrics createMockTranscript (jsOr req.duration 300)
      (.ok (.mock (generateMockAnalysis req.userInfo env.rnd)) (some metrics) true none, db)
    else
      let metrics := generateAnalysisMetrics transcriptArray (jsOr req.duration 0)
      match env.provider with
      | .unreachable msg => (catastrophicResponse msg env.rnd, db)
      | .empty => (catastrophicResponse "No analysis generated by OpenAI".data env.rnd, db)
      | .content none =>
        let fallbackMetrics := generateAnalysisMetrics transcriptArray (jsOr req.duration 300)
        (.ok (.mock (generateMockAnalysis req.userInfo env.rnd)) (some fallbackMetrics) true
          (some "Failed to parse AI analysis".data), db)
      | .content (some parsed) =>
        let finalA := mkFinalAnalysis parsed req.sessionId req.duration
        let db' :=
          if !("demo-".data).isPrefixOf req.sessionId && env.analysisUpsertOk then
            upsertBySession db ⟨req.sessionId, finalA⟩
          else db
        (.ok (.real finalA) (some metrics) false none, db')

/-- Shallow embedding of the analyze route `POST` handler (part_002).
The store is threaded explicitly as the list of `analysis_results` rows; the
`sessions` update and `session_analytics` upsert touch other tables, are
best-effort, and do not affect the response. A `demo-`-prefixed session id
bypasses authorization entirely and answers with a mock analysis plus metrics
over the supplied (or mock) transcript; otherwise the server secret or a
bearer credential is required. -/
def analyzePOST (env : AnalyzeEnv) (req : AnalyzeRequest) (db : List AnalysisRow) :
    AnalyzeResult × List AnalysisRow :=
  if ("demo-".data).isPrefixOf req.sessionId then
    let metrics := generateAnalysisMetrics (demoTranscriptArray req.transcript) (jsOr req.duration 300)
    (.ok (.mock (generateMockAnalysis req.userInfo env.rnd)) (some metrics) true none, db)
  else if secretOk req.serverSecretHeader env.serverSecret then
    analyzeAuthed env req db
  else
    match req.authHeader with
    | none => (.err 401 "Authorization required".data, db)
    | some _ =>
      if !env.auth.userOk then (.err 401 "Unauthorized".data, db)
      else if !env.auth.profileOk then (.err 404 "Profile not found".data, db)
      else if !env.auth.sessionOwnerOk then
        (.err 404 "Session not found or access denied".data, db)
      else analyzeAuthed env req db

/-- The `metrics` component of an analyze response (`none` for error responses
and for bodies without a `metrics` field). -/
def metricsOf : AnalyzeResult → Option Metrics
  | .ok _ m _ _ => m
  | .err _ _ => none

/-- Whether an analyze response is an HTTP-200 body (never an error status). -/
def isOkResult : AnalyzeResult → Bool
  | .ok _ _ _ _ => true
  | .err _ _ => false

/-! ## End-session route (part_001) -/

/-- The validated end-session body plus the authorization header. -/
structure EndSessionReq where
  session_id : List Char
  duration_seconds : ℚ
  transcript : Option (List TranscriptMessage)
  userInfo : Option UserInfo
  authHeader : Option (List Char)
deriving DecidableEq, Repr

/-- Outcome of the fire-and-tolerate `fetch` that triggers the analyze route
from the end-session handler: the call succeeded (`response.ok`), returned a
non-2xx status, or threw. -/
inductive TriggerOutcome
| ok
| httpFail
| threw
deriving DecidableEq, Repr

/-- Environment of one end-session call: outcomes of the auth/store steps, the
session's current status, whether the session update write succeeds, the
analysis-trigger outcome, and the random demo score
(`Math.round((Math.random() * 2 + 3.5) * 10) / 10`). -/
structure EndEnv where
  userOk : Bool
  profileOk : Bool
  sessionFound : Bool
  sessionStatus : List Char
  updateOk : Bool
  trigger : TriggerOutcome
  demoScore : ℚ
deriving DecidableEq, Repr

/-- A response of the end-session route: an error status, the demo-session
success payload, or the real-session success payload. -/
inductive EndResult
| err (status : ℕ) (msg : List Char)
| okDemo (id : List Char) (duration_seconds : ℚ) (minutesUsed : ℤ) (score : ℚ)
    (analysisTriggered : Bool)
| okReal (id : List Char) (duration_seconds : ℚ) (minuteCost : ℚ) (minutesUsed : ℤ)
    (transcriptStored : Bool) (analysisTriggered : Bool) (processingStatus : List Char)
deriving DecidableEq, Repr

/-- `!!(validatedData.transcript && validatedData.transcript.length > 0)`. -/
def hasTranscriptItems (t : Option (List TranscriptMessage)) : Bool :=
  match t with
  | some l => !l.isEmpty
  | none => false

/-- `validateEndSession`: a truthy string `session_id` and a positive numeric
`duration_seconds` (`0` is falsy and also fails `<= 0`); a present transcript
must be an array, which the embedding enforces by type. -/
def validEndSession (req : EndSessionReq) : Bool :=
  !req.session_id.isEmpty && decide (0 < req.duration_seconds)

/-- Shallow embedding of the end-session route `POST` handler (part_001).
A validation throw is caught by the outermost catch and becomes a 500. A
`demo-` session answers immediately (its analysis trigger, fired only when a
non-empty transcript is present, never alters the response). A real session
requires a bearer credential, an owned `active` session and a successful
update; the analysis trigger is fired when a non-empty transcript is present
and its failure only clears the `analysis_triggered` flag, never the success
response. The subscription/usage/audit writes touch other tables and do not
affect the response. -/
def endSessionPOST (env : EndEnv) (req : EndSessionReq) : EndResult :=
  if !validEndSession req then .err 500 "Internal server error".data
  else if ("demo-".data).isPrefixOf req.session_id then
    let minutesUsed := jsCeil (req.duration_seconds / 60)
    .okDemo req.session_id req.duration_seconds minutesUsed env.demoScore
      (hasTranscriptItems req.transcript)
  else
    match req.authHeader with
    | none => .err 401 "Authorization header required".data
    | some _ =>
      if !env.userOk then .err 401 "Invalid authorization token".data
      else if !env.profileOk then .err 404 "User profile not found".data
      else if !env.sessionFound then .err 404 "Session not found or access denied".data
      else if !(env.sessionStatus == "active".data) then .err 400 "Session is not active".data
      else if !env.updateOk then .err 500 "Failed to update session".data
      else
        let minutesUsed := jsCeil (req.duration_seconds / 60)
        let minuteCost := (minutesUsed : ℚ) * (1 / 10)
        let analysisTriggered :=
          hasTranscriptItems req.transcript && (env.trigger == TriggerOutcome.ok)
        let processingStatus :=
          if req.transcript.isSome then "analyzing".data else "completed".data
        .okReal req.session_id req.duration_seconds minuteCost minutesUsed
          (hasTranscriptItems req.transcript) analysisTriggered processingStatus

/-- Whether an end-session response is a success acknowledgement. -/
def isEndSuccess : EndResult → Bool
  | .err _ _ => false
  | .okDemo _ _ _ _ _ => true
  | .okReal _ _ _ _ _ _ _ => true

/-! ## Basic lemmas about the text primitives -/

/-- `hasSub` decides the substring (infix) relation. -/
theorem hasSub_iff_infix (p s : List Char) : hasSub p s = true ↔ p <:+: s := by
  induction s with
  | nil => simp [hasSub, List.isEmpty_iff]
  | cons c t ih =>
    simp [hasSub, List.infix_cons_iff, List.isPrefixOf_iff_prefix, ih]

theorem wsChar_not_word (c : Char) (h : isWsChar c = true) : isWordChar c = false := by
  simp only [isWsChar, Bool.or_eq_true, beq_iff_eq] at h
  rcases h with ((rfl | rfl) | rfl) | rfl <;> decide

theorem headWord_append (x u : List Char) (hu : headWord u = false) :
    headWord (x ++ u) = headWord x := by
  cases x with
  | nil => simpa using hu
  | cons c t => rfl

theorem allWs_headWord (w : List Char) (hw : ∀ c ∈ w, isWsChar c = true) :
    headWord w = false := by
  cases w with
  | nil => rfl
  | cons c t => exact wsChar_not_word c (hw c (by simp)) ▸ rfl

theorem getLast?_cons_cons (a b : Char) (l : List Char) :
    (a :: b :: l).getLast? = (b :: l).getLast? := by
  simp [List.getLast?_cons_cons]

theorem prefix_all_ws_false (q w : List Char)
    (hw : ∀ c ∈ w, isWsChar c = true)
    (hl : ∀ c, q.getLast? = some c → isWsChar c = false)
    (hne : q ≠ []) : q.isPrefixOf w = false := by
  induction q generalizing w with
  | nil => exact absurd rfl hne
  | cons a as ih =>
    cases w with
    | nil => rfl
    | cons d w' =>
      cases as with
      | nil =>
        have ha : isWsChar a = false := hl a rfl
        have hd : isWsChar d = true := hw d (by simp)
        have : (a == d) = false := by
          by_cases h : a = d
          · subst h; rw [ha] at hd; exact absurd hd (by simp)
          · simpa using h
        simp [List.isPrefixOf, this]
      | cons b bs =>
        have hl' : ∀ c, (b :: bs).getLast? = some c → isWsChar c = false := by
          intro c hc
          exact hl c (by rw [getLast?_cons_cons]; exact hc)
        have := ih w' (fun c hc => hw c (by simp [hc])) hl' (by simp)
        simp [List.isPrefixOf, this]

theorem isPrefixOf_append_allWs (q s w : List Char)
    (hw : ∀ c ∈ w, isWsChar c = true)
    (hl : ∀ c, q.getLast? = some c → isWsChar c = false) :
    q.isPrefixOf (s ++ w) = q.isPrefixOf s := by
  induction q generalizing s with
  | nil => simp [List.isPrefixOf]
  | cons a as ih =>
    cases s with
    | nil =>
      simp only [List.nil_append]
      rw [prefix_all_ws_false (a :: as) w hw hl (by simp)]
      rfl
    | cons b bs =>
      cases as with
      | nil => simp [List.isPrefixOf]
      | cons x xs =>
        have hl' : ∀ c, (x :: xs).getLast? = some c → isWsChar c = false := by
          intro c hc
          exact hl c (by rw [getLast?_cons_cons]; exact hc)
        have := ih hl' (s := bs)
        simp [List.isPrefixOf, this]

theorem drop_append_of_le (n : ℕ) (s w : List Char) (h : n ≤ s.length) :
    (s ++ w).drop n = s.drop n ++ w := by
  rw [List.drop_append_eq_append_drop, Nat.sub_eq_zero_of_le h, List.drop_zero]

theorem length_le_of_isPrefixOf (p s : List Char) (h : p.isPrefixOf s = true) :
    p.length ≤ s.length :=
  (List.isPrefixOf_iff_prefix.mp h).length_le

theorem matchHere_of_append (p s u : List Char) (prevW : Bool) (hu : headWord u = false)
    (h : matchHere p s prevW = true) : matchHere p (s ++ u) prevW = true := by
  simp only [matchHere, Bool.and_eq_true] at h ⊢
  obtain ⟨⟨h1, h2⟩, h3⟩ := h
  refine ⟨⟨?_, h2⟩, ?_⟩
  · exact List.isPrefixOf_iff_prefix.mpr ((List.isPrefixOf_iff_prefix.mp h1).trans (List.prefix_append s u))
  · rw [drop_append_of_le _ _ _ (length_le_of_isPrefixOf _ _ h1),
      headWord_append _ _ hu]
    exact h3

theorem countFrom_le_append (p u : List Char) (hu : headWord u = false) :
    ∀ (s : List Char) (prevW : Bool), countFrom p prevW s ≤ countFrom p prevW (s ++ u) := by
  intro s
  induction s with
  | nil => intro prevW; exact Nat.zero_le _
  | cons c rest ih =>
    intro prevW
    show countFrom p prevW (c :: rest) ≤ countFrom p prevW (c :: (rest ++ u))
    simp only [countFrom]
    refine Nat.add_le_add ?_ (ih _)
    by_cases h : matchHere p (c :: rest) prevW = true
    · have h2 := matchHere_of_append p (c :: rest) u prevW hu h
      rw [List.cons_append] at h2
      simp [h, h2]
    · simp [h]

theorem matchHere_append_allWs (p w : List Char)
    (hw : ∀ c ∈ w, isWsChar c = true)
    (hl : ∀ c, p.getLast? = some c → isWsChar c = false) :
    ∀ (s : List Char) (prevW : Bool), matchHere p (s ++ w) prevW = matchHere p s prevW := by
  intro s prevW
  simp only [matchHere]
  rw [isPrefixOf_append_allWs p s w hw hl]
  by_cases h1 : p.isPrefixOf s = true
  · rw [drop_append_of_le _ _ _ (length_le_of_isPrefixOf _ _ h1),
      headWord_append _ _ (allWs_headWord w hw)]
  · rw [Bool.not_eq_true] at h1
    simp [h1]

theorem countFrom_allWs_zero (p : List Char) (hne : p ≠ [])
    (hh : isWsChar p.headI = false) :
    ∀ (w : List Char), (∀ c ∈ w, isWsChar c = true) → ∀ prevW, countFrom p prevW w = 0 := by
  obtain ⟨a, as, rfl⟩ := List.exists_cons_of_ne_nil hne
  simp only [List.headI] at hh
  intro w
  induction w with
  | nil => intro _ _; rfl
  | cons d w' ih =>
    intro hw prevW
    have hd : isWsChar d = true := hw d (by simp)
    have had : (a == d) = false := by
      by_cases h : a = d
      · subst h; rw [hh] at hd; exact absurd hd (by simp)
      · simpa using h
    simp only [countFrom]
    rw [ih (fun c hc => hw c (by simp [hc])) (isWordChar d)]
    simp [matchHere, List.isPrefixOf, had]

theorem countFrom_append_allWs (p w : List Char) (hne : p ≠ [])
    (hh : isWsChar p.headI = false)
    (hw : ∀ c ∈ w, isWsChar c = true)
    (hl : ∀ c, p.getLast? = some c → isWsChar c = false) :
    ∀ (s : List Char) (prevW : Bool), countFrom p prevW (s ++ w) = countFrom p prevW s := by
  intro s
  induction s with
  | nil =>
    intro prevW
    simpa using countFrom_allWs_zero p hne hh w hw prevW
  | cons c rest ih =>
    intro prevW
    have hm : matchHere p (c :: (rest ++ w)) prevW = matchHere p (c :: rest) prevW := by
      have := matchHere_append_allWs p w hw hl (c :: rest) prevW
      rwa [List.cons_append] at this
    simp only [List.cons_append, countFrom, List.append_eq]
    simp only [hm, ih]

theorem countFrom_ws_prefix (p : List Char) (hne : p ≠ [])
    (hh : isWsChar p.headI = false) :
    ∀ (w s : List Char), (∀ c ∈ w, isWsChar c = true) →
      countFrom p false (w ++ s) = countFrom p false s := by
  obtain ⟨a, as, rfl⟩ := List.exists_cons_of_ne_nil hne
  simp only [List.headI] at hh
  intro w
  induction w with
  | nil => intro s _; rfl
  | cons d w' ih =>
    intro s hw
    have hd : isWsChar d = true := hw d (by simp)
    have had : (a == d) = false := by
      by_cases h : a = d
      · subst h; rw [hh] at hd; exact absurd hd (by simp)
      · simpa using h
    simp only [List.cons_append, countFrom, List.append_eq]
    rw [wsChar_not_word d hd, ih s (fun c hc => hw c (by simp [hc]))]
    simp [matchHere, List.isPrefixOf, had]

theorem countOcc_dropWhile (p : List Char) (hne : p ≠ [])
    (hh : isWsChar p.headI = false) (s : List Char) :
    countOcc p s = countOcc p (s.dropWhile isWsChar) := by
  conv_lhs => rw [← List.takeWhile_append_dropWhile (p := isWsChar) (l := s)]
  exact countFrom_ws_prefix p hne hh _ _ (fun c hc => List.mem_takeWhile_imp hc)

theorem countOcc_trimChars (p : List Char) (hne : p ≠ [])
    (hh : isWsChar p.headI = false)
    (hl : ∀ c, p.getLast? = some c → isWsChar c = false) (s : List Char) :
    countOcc p (trimChars s) = countOcc p s := by
  rw [countOcc_dropWhile p hne hh s]
  have hdecomp : s.dropWhile isWsChar
      = trimChars s ++ ((s.dropWhile isWsChar).reverse.takeWhile isWsChar).reverse := by
    conv_lhs => rw [← List.reverse_reverse (s.dropWhile isWsChar)]
    conv_lhs =>
      rw [← List.takeWhile_append_dropWhile (p := isWsChar)
        (l := (s.dropWhile isWsChar).reverse)]
    rw [List.reverse_append]
    rfl
  conv_rhs => rw [hdecomp]
  rw [countOcc, countOcc,
    countFrom_append_allWs p _ hne hh
      (fun c hc => List.mem_takeWhile_imp (List.mem_reverse.mp hc)) hl]

theorem toNat_ofNat_valid (n : ℕ) (h : n < 55296) : (Char.ofNat n).toNat = n := by
  simp [Char.ofNat, Nat.isValidChar, h, Char.ofNatAux, Char.toNat, UInt32.toNat]

theorem isWsChar_lowerChar (c : Char) : isWsChar (lowerChar c) = isWsChar c := by
  unfold lowerChar
  by_cases h : 65 ≤ c.toNat ∧ c.toNat ≤ 90
  · rw [if_pos h]
    have h1 : (Char.ofNat (c.toNat + 32)).toNat = c.toNat + 32 :=
      toNat_ofNat_valid _ (by omega)
    have hws : ∀ d : Char, 33 ≤ d.toNat → isWsChar d = false := by
      intro d hd
      simp only [isWsChar, Bool.or_eq_false_iff, beq_eq_false_iff_ne, ne_eq]
      refine ⟨⟨⟨?_, ?_⟩, ?_⟩, ?_⟩ <;> rintro rfl <;> simp_all
    rw [hws _ (by omega), hws _ (by omega)]
  · rw [if_neg h]

theorem trimChars_lowerStr (s : List Char) :
    trimChars (lowerStr s) = lowerStr (trimChars s) := by
  have hf : isWsChar ∘ lowerChar = isWsChar := funext isWsChar_lowerChar
  simp only [trimChars, lowerStr]
  rw [List.dropWhile_map, hf, ← List.map_reverse, List.dropWhile_map, hf, ← List.map_reverse]

theorem lowerStr_append (a b : List Char) : lowerStr (a ++ b) = lowerStr a ++ lowerStr b :=
  List.map_append lowerChar a b

theorem lowerChar_space : lowerChar ' ' = ' ' := by decide

theorem joinSp_append (a b : List (List Char)) (ha : a ≠ []) (hb : b ≠ []) :
    joinSp (a ++ b) = joinSp a ++ ' ' :: joinSp b := by
  induction a with
  | nil => exact absurd rfl ha
  | cons m a' ih =>
    cases a' with
    | nil =>
      cases b with
      | nil => exact absurd rfl hb
      | cons x xs => simp [joinSp]
    | cons m2 a'' =>
      have h2 := ih (by simp)
      simp only [List.cons_append] at h2
      simp only [List.cons_append, joinSp, List.append_eq]
      rw [h2]
      simp [List.append_assoc]

/-! ## Claims about the pure normalizers (C3, C4, C5) -/

/-- C3: `normalizeSessionStatus` satisfies the canonical mapping table:
`'analyzed'` maps to `'completed'` for every value of the analysis flag;
`'completed'` maps to `'completed'` when analysis is present and `'processing'`
when it is not; `'unknown-garbage'` and every other raw status outside the
enumerated set map to `'in_progress'`, never an error. -/
theorem normalizeSessionStatus_table :
    (∀ b : Option Bool, normalizeSessionStatus "analyzed".data b = "completed".data) ∧
    normalizeSessionStatus "completed".data (some true) = "completed".data ∧
    normalizeSessionStatus "completed".data (some false) = "processing".data ∧
    normalizeSessionStatus "unknown-garbage".data (some false) = "in_progress".data ∧
    (∀ (s : List Char) (b : Option Bool),
      s ∉ ["analyzed".data, "completed".data, "active".data, "processing".data,
            "demo".data, "archived".data] →
      normalizeSessionStatus s b = "in_progress".data) := by
  refine ⟨fun b => by simp [normalizeSessionStatus], by decide, by decide, by decide, ?_⟩
  intro s b h
  simp only [List.mem_cons, List.not_mem_nil, or_false, not_or] at h
  obtain ⟨h1, h2, h3, h4, h5, h6⟩ := h
  simp [normalizeSessionStatus, h1, h2, h3, h4, h5, h6]

/-- Witness for C3 at the concrete raw status `'unknown-garbage'`. -/
theorem normalizeSessionStatus_table_witness :
    normalizeSessionStatus "unknown-garbage".data none = "in_progress".data :=
  normalizeSessionStatus_table.2.2.2.2 "unknown-garbage".data none (by decide)

/-- C4 counterexample: the round-trip law fails on the absent/`undefined`
input, which the claim explicitly includes: the inner conversion turns the
absent score into `0`, the outer conversion returns `0`, and `0` is not equal
(in the JS `==` sense, which is false between a number and `undefined`) to the
original absent input. -/
theorem normalizeScore_roundTrip_cex :
    normalizeScore (some (normalizeScore none 10 100)) 100 10 = 0 ∧
    (none : Option ℚ) ≠ some 0 := by
  constructor
  · norm_num [normalizeScore]
  · decide

/-- C4 amended: the 10→100→10 round trip is the identity on every numeric
score (including `0`); for the absent input the round trip returns `0` rather
than the absent value. -/
theorem normalizeScore_roundTrip :
    (∀ q : ℚ, normalizeScore (some (normalizeScore (some q) 10 100)) 100 10 = q) ∧
    normalizeScore (some (normalizeScore none 10 100)) 100 10 = 0 := by
  constructor
  · intro q
    simp only [normalizeScore]
    norm_num
  · norm_num [normalizeScore]

/-- C5: `isDemoSession` returns `true` exactly when the identifier starts with
`"demo-"` or `"temp-"`, or contains `"demo"` as a substring anywhere, or the
explicit status equals `"demo"`; in particular `'user-demo-2'` is classified as
a demo (local) session by the substring rule. -/
theorem isDemoSession_spec :
    (∀ (sid st : Option (List Char)),
      isDemoSession sid st = true ↔
        (st = some "demo".data ∨ ∃ s, sid = some s ∧
          ("demo-".data <+: s ∨ "temp-".data <+: s ∨ "demo".data <:+: s))) ∧
    isDemoSession (some "user-demo-2".data) none = true := by
  constructor
  · intro sid st
    rcases sid with _ | s
    · simp only [isDemoSession]
      split_ifs with h1 <;> simp_all
    · simp only [isDemoSession]
      split_ifs with h1 h2 h3 h4 <;>
        simp_all [List.isPrefixOf_iff_prefix, ← hasSub_iff_infix]
  · decide

/-- Witness for C5 at the concrete identifier `'user-demo-2'` (substring rule,
no `demo-`/`temp-` prefix, no demo status). -/
theorem isDemoSession_spec_witness :
    isDemoSession (some "user-demo-2".data) none = true :=
  isDemoSession_spec.2

/-! ## C8: monotonicity of the filler-word count under concatenation -/

/-- C8: `fillerWordsCount` is monotone non-decreasing under transcript
concatenation: appending further messages can only add (never remove)
boundary-delimited filler-phrase occurrences in the single-space-joined
transcript text, so `countFillerWords (T1 ++ T2) ≥ countFillerWords T1`. -/
theorem countFillerWords_mono (T1 T2 : List TranscriptMessage) :
    countFillerWords T1 ≤ countFillerWords (T1 ++ T2) := by
  by_cases h1 : T1 = []
  · subst h1
    have hz : countFillerWords ([] : List TranscriptMessage) = 0 := by decide
    rw [List.nil_append, hz]
    exact Nat.zero_le _
  by_cases h2 : T2 = []
  · subst h2
    rw [List.append_nil]
  have hall : ∀ q ∈ fillerWords,
      q ≠ [] ∧ isWsChar q.headI = false ∧ isWsChar (q.getLastD 'x') = false := by decide
  simp only [countFillerWords]
  refine List.sum_le_sum ?_
  intro p hp
  obtain ⟨hne, hh, hlD⟩ := hall p hp
  have hl : ∀ c, p.getLast? = some c → isWsChar c = false := by
    intro c hc
    have hx : p.getLastD 'x' = c := by rw [List.getLastD_eq_getLast?, hc]; rfl
    rwa [hx] at hlD
  have hmapne1 : T1.map (·.message) ≠ [] := by simpa using h1
  have hmapne2 : T2.map (·.message) ≠ [] := by simpa using h2
  have hjoin : joinSp ((T1 ++ T2).map (·.message))
      = joinSp (T1.map (·.message)) ++ ' ' :: joinSp (T2.map (·.message)) := by
    rw [List.map_append, joinSp_append _ _ hmapne1 hmapne2]
  have htext1 : extractTranscriptText T1 = trimChars (joinSp (T1.map (·.message))) := by
    simp [extractTranscriptText, h1]
  have htext12 : extractTranscriptText (T1 ++ T2)
      = trimChars (joinSp (T1.map (·.message)) ++ ' ' :: joinSp (T2.map (·.message))) := by
    have hne12 : T1 ++ T2 ≠ [] := by simp [h1]
    simp only [extractTranscriptText, if_neg hne12, hjoin]
  have hstep : countOcc p (lowerStr (joinSp (T1.map (·.message)))) ≤
      countOcc p (lowerStr (joinSp (T1.map (·.message)))
        ++ ' ' :: lowerStr (joinSp (T2.map (·.message)))) :=
    countFrom_le_append p _ (by rfl) _ _
  calc countOcc p (lowerStr (extractTranscriptText T1))
      = countOcc p (trimChars (lowerStr (joinSp (T1.map (·.message))))) := by
        rw [htext1, trimChars_lowerStr]
    _ = countOcc p (lowerStr (joinSp (T1.map (·.message)))) :=
        countOcc_trimChars p hne hh hl _
    _ ≤ countOcc p (lowerStr (joinSp (T1.map (·.message)))
          ++ ' ' :: lowerStr (joinSp (T2.map (·.message)))) := hstep
    _ = countOcc p (lowerStr (joinSp (T1.map (·.message))
          ++ ' ' :: joinSp (T2.map (·.message)))) := by
        rw [lowerStr_append]
        simp only [lowerStr, List.map_cons, lowerChar_space]
    _ = countOcc p (trimChars (lowerStr (joinSp (T1.map (·.message))
          ++ ' ' :: joinSp (T2.map (·.message))))) :=
        (countOcc_trimChars p hne hh hl _).symm
    _ = countOcc p (lowerStr (extractTranscriptText (T1 ++ T2))) := by
        rw [htext12, trimChars_lowerStr]

/-! ## Lemmas about the analyze handler -/

/-- The mock generator always produces a fully populated result, whatever the
requester info and random draws. -/
theorem generateMockAnalysis_fullyPopulated (u : Option UserInfo) (r : MockRand) :
    fullyPopulated (generateMockAnalysis u r) = true := by
  obtain ⟨pick, r1, r2, rDur, now⟩ := r
  cases pick <;> rfl

/-- When the session id is not `demo-`-prefixed and the authorization gate
passes, the analyze handler proceeds to the post-authorization stage. -/
theorem analyzePOST_eq_authed (env : AnalyzeEnv) (req : AnalyzeRequest) (db : List AnalysisRow)
    (hdemo : ("demo-".data).isPrefixOf req.sessionId = false)
    (hauth : authPasses env req = true) :
    analyzePOST env req db = analyzeAuthed env req db := by
  unfold analyzePOST
  rw [if_neg (by simp [hdemo])]
  by_cases hsec : secretOk req.serverSecretHeader env.serverSecret = true
  · rw [if_pos hsec]
  · rw [if_neg hsec]
    rw [Bool.not_eq_true] at hsec
    unfold authPasses at hauth
    rw [hsec, Bool.false_or] at hauth
    cases ha : req.authHeader with
    | none => rw [ha] at hauth; simp at hauth
    | some a =>
      rw [ha] at hauth
      simp only [Option.isSome_some, Bool.true_and, Bool.and_eq_true] at hauth
      obtain ⟨⟨hu, hp⟩, ho⟩ := hauth
      simp [hu, hp, ho]

/-- Replacing every matching row by `row` leaves exactly the single row `row`
among the matches, provided the match was unique to begin with. -/
theorem filter_map_replace (pred : AnalysisRow → Bool) (row : AnalysisRow)
    (hrow : pred row = true) :
    ∀ db : List AnalysisRow, (db.filter pred).length ≤ 1 → db.any pred = true →
      (db.map (fun r => if pred r then row else r)).filter pred = [row] := by
  intro db
  induction db with
  | nil => intro _ hany; simp at hany
  | cons r rest ih =>
    intro h hany
    by_cases hr : pred r = true
    · have hfil : (r :: rest).filter pred = r :: rest.filter pred := by
        rw [List.filter_cons_of_pos hr]
      rw [hfil] at h
      have h0 : rest.filter pred = [] := by
        apply List.eq_nil_of_length_eq_zero
        simp only [List.length_cons] at h
        omega
      have hnone : ∀ x ∈ rest, pred x = false := by
        intro x hx
        by_cases hpx : pred x = true
        · exfalso
          have hmem : x ∈ rest.filter pred := List.mem_filter.mpr ⟨hx, hpx⟩
          rw [h0] at hmem
          simp at hmem
        · simpa using hpx
      have hmap : rest.map (fun r => if pred r then row else r) = rest := by
        conv_rhs => rw [← List.map_id rest]
        apply List.map_congr_left
        intro x hx
        simp [hnone x hx]
      rw [List.map_cons, if_pos hr, hmap, List.filter_cons_of_pos hrow, h0]
    · have hr' : pred r = false := by simpa using hr
      rw [List.filter_cons_of_neg (by simp [hr'])] at h
      have hany' : rest.any pred = true := by
        rw [List.any_cons, hr', Bool.false_or] at hany
        exact hany
      rw [List.map_cons, if_neg (by simp [hr']), List.filter_cons_of_neg (by simp [hr'])]
      exact ih h hany'

/-- The store upsert keyed by session id: afterwards exactly the upserted row
matches the key, provided the key was unique beforehand. -/
theorem rowsFor_upsert (db : List AnalysisRow) (row : AnalysisRow)
    (h : (rowsFor db row.session_id).length ≤ 1) :
    rowsFor (upsertBySession db row) row.session_id = [row] := by
  unfold upsertBySession rowsFor
  by_cases hany : db.any (fun r => r.session_id == row.session_id) = true
  · rw [if_pos hany]
    exact filter_map_replace _ row (by simp) db h hany
  · rw [if_neg hany]
    rw [Bool.not_eq_true, List.any_eq_false] at hany
    have hfil : db.filter (fun r => r.session_id == row.session_id) = [] := by
      apply List.filter_eq_nil_iff.mpr
      intro a ha
      simp [hany a ha]
    rw [List.filter_append, hfil, List.nil_append, List.filter_cons_of_pos (by simp),
      List.filter_nil]

/-- On the fully successful path (authorized, key configured, meaningful
transcript, parseable provider reply, working store) the analyze handler
returns the provider-derived `finalAnalysis` with real-transcript metrics and
upserts it into `analysis_results` keyed by the session id. -/
theorem analyzePOST_success (env : AnalyzeEnv) (req : AnalyzeRequest) (db : List AnalysisRow)
    (k : List Char) (a : ParsedAnalysis)
    (hdemo : ("demo-".data).isPrefixOf req.sessionId = false)
    (hauth : authPasses env req = true)
    (hkey : env.openaiKey = some k)
    (hlong : 20 ≤ (normalizeTranscript req.transcript).2.length)
    (hprov : env.provider = .content (some a))
    (hup : env.analysisUpsertOk = true) :
    analyzePOST env req db
      = (.ok (.real (mkFinalAnalysis a req.sessionId req.duration))
          (some (generateAnalysisMetrics (normalizeTranscript req.transcript).1
            (jsOr req.duration 0)))
          false none,
        upsertBySession db ⟨req.sessionId, mkFinalAnalysis a req.sessionId req.duration⟩) := by
  rw [analyzePOST_eq_authed env req db hdemo hauth]
  unfold analyzeAuthed
  rw [hkey]
  have hgate : ¬((normalizeTranscript req.transcript).2 = []
      ∨ (normalizeTranscript req.transcript).2.length < 20) := by
    rintro (hnil | hlt)
    · rw [hnil] at hlong; simp at hlong
    · omega
  rw [if_neg hgate, hprov]
  simp [hdemo, hup]

/-! ## Claims about the analyze and end-session handlers -/

/-- C1: for a Persisted-domain (non-`demo-`) session id, invoking analyze
twice in succession on valid, authorized, provider-successful calls leaves
exactly one `analysis_results` row for that session id, containing the second
call's content: the persistence step is an insert-or-replace keyed uniquely by
session id (upsert on `session_id`), never an insert of a duplicate row. -/
theorem analyze_twice_single_row (env1 env2 : AnalyzeEnv) (req1 req2 : AnalyzeRequest)
    (db : List AnalysisRow) (sid k1 k2 : List Char) (a1 a2 : ParsedAnalysis)
    (hs1 : req1.sessionId = sid) (hs2 : req2.sessionId = sid)
    (hdemo : ("demo-".data).isPrefixOf sid = false)
    (hauth1 : authPasses env1 req1 = true) (hauth2 : authPasses env2 req2 = true)
    (hkey1 : env1.openaiKey = some k1) (hkey2 : env2.openaiKey = some k2)
    (hlong1 : 20 ≤ (normalizeTranscript req1.transcript).2.length)
    (hlong2 : 20 ≤ (normalizeTranscript req2.transcript).2.length)
    (hprov1 : env1.provider = .content (some a1))
    (hprov2 : env2.provider = .content (some a2))
    (hup1 : env1.analysisUpsertOk = true) (hup2 : env2.analysisUpsertOk = true)
    (huniq : (rowsFor db sid).length ≤ 1) :
    rowsFor (analyzePOST env2 req2 (analyzePOST env1 req1 db).2).2 sid
        = [⟨sid, mkFinalAnalysis a2 sid req2.duration⟩] ∧
    (rowsFor (analyzePOST env2 req2 (analyzePOST env1 req1 db).2).2 sid).length = 1 := by
  subst hs1
  have h1 := analyzePOST_success env1 req1 db k1 a1 hdemo hauth1 hkey1 hlong1 hprov1 hup1
  have hdb1 : rowsFor (analyzePOST env1 req1 db).2 req1.sessionId
      = [⟨req1.sessionId, mkFinalAnalysis a1 req1.sessionId req1.duration⟩] := by
    rw [h1]
    exact rowsFor_upsert db ⟨req1.sessionId, mkFinalAnalysis a1 req1.sessionId req1.duration⟩ huniq
  have h2 := analyzePOST_success env2 req2 ((analyzePOST env1 req1 db).2) k2 a2
    (by rwa [hs2]) hauth2 hkey2 hlong2 hprov2 hup2
  have huniq2 : (rowsFor (analyzePOST env1 req1 db).2 req2.sessionId).length ≤ 1 := by
    rw [hs2, hdb1]
    simp
  have hfinal : rowsFor (analyzePOST env2 req2 (analyzePOST env1 req1 db).2).2 req2.sessionId
      = [⟨req2.sessionId, mkFinalAnalysis a2 req2.sessionId req2.duration⟩] := by
    rw [h2]
    exact rowsFor_upsert _ ⟨req2.sessionId, mkFinalAnalysis a2 req2.sessionId req2.duration⟩ huniq2
  rw [hs2] at hfinal
  exact ⟨hfinal, by rw [hfinal]; rfl⟩

/-- Witness for C1: a concrete pair of authorized calls (server-secret path,
26-character transcript, parseable provider replies) on an initially empty
table ends with exactly the single row written by the second call. -/
theorem analyze_twice_single_row_witness :
    rowsFor (analyzePOST
        ⟨some "k".data, some "s".data, ⟨true, true, true⟩,
          .content (some ⟨8, ["clear opener".data], ["ask more questions".data],
            none, none, none, none⟩), ⟨false, 0, 0, 0, 0⟩, true⟩
        ⟨"abc123".data, some (.str "abcdefghijklmnopqrstuvwxyz".data), some 60, none,
          none, some "s".data⟩
        (analyzePOST
          ⟨some "k".data, some "s".data, ⟨true, true, true⟩,
            .content (some ⟨7, ["good greeting".data], ["more discovery".data],
              none, none, none, none⟩), ⟨true, 1, 1, 1, 1⟩, true⟩
          ⟨"abc123".data, some (.str "abcdefghijklmnopqrstuvwxyz".data), some 45, none,
            none, some "s".data⟩ []).2).2 "abc123".data
      = [⟨"abc123".data,
          mkFinalAnalysis ⟨8, ["clear opener".data], ["ask more questions".data],
            none, none, none, none⟩ "abc123".data (some 60)⟩] ∧
    (rowsFor (analyzePOST
        ⟨some "k".data, some "s".data, ⟨true, true, true⟩,
          .content (some ⟨8, ["clear opener".data], ["ask more questions".data],
            none, none, none, none⟩), ⟨false, 0, 0, 0, 0⟩, true⟩
        ⟨"abc123".data, some (.str "abcdefghijklmnopqrstuvwxyz".data), some 60, none,
          none, some "s".data⟩
        (analyzePOST
          ⟨some "k".data, some "s".data, ⟨true, true, true⟩,
            .content (some ⟨7, ["good greeting".data], ["more discovery".data],
              none, none, none, none⟩), ⟨true, 1, 1, 1, 1⟩, true⟩
          ⟨"abc123".data, some (.str "abcdefghijklmnopqrstuvwxyz".data), some 45, none,
            none, some "s".data⟩ []).2).2 "abc123".data).length = 1 :=
  analyze_twice_single_row _ _ _ _ _ _ _ _ _ _ rfl rfl (by decide) (by decide) (by decide)
    rfl rfl (by decide) (by decide) rfl rfl rfl rfl (by decide)

/-- C2 counterexample: an authorized analyze call with an unconfigured
provider key and a real, meaningful transcript receives a degraded response
with no metrics field at all — contradicting the claim that the response
always carries the metrics computed from the real transcript whenever a real
transcript exists. -/
theorem analyze_provider_failure_cex :
    metricsOf (analyzePOST
      ⟨none, some "s".data, ⟨true, true, true⟩, .empty, ⟨false, 0, 0, 0, 0⟩, true⟩
      ⟨"abc123".data, some (.str "abcdefghijklmnopqrstuvwxyz".data), some 60, none,
        none, some "s".data⟩ []).1 = none ∧
    authPasses
      ⟨none, some "s".data, ⟨true, true, true⟩, .empty, ⟨false, 0, 0, 0, 0⟩, true⟩
      ⟨"abc123".data, some (.str "abcdefghijklmnopqrstuvwxyz".data), some 60, none,
        none, some "s".data⟩ = true ∧
    20 ≤ (normalizeTranscript (some (.str "abcdefghijklmnopqrstuvwxyz".data))).2.length :=
  ⟨rfl, by decide, by decide⟩

/-- C2 amended: when an authorized analyze request hits a qualitative-provider
failure the caller never receives an error response — the body always has
HTTP-success semantics with a complete mock analysis — but the accompanying
metrics differ by failure mode: a missing key returns no metrics at all, an
unparseable/incomplete reply returns metrics computed from the real transcript
(with the 300-second duration default), and an unreachable provider (or an
empty completion) returns metrics computed from the mock transcript. -/
theorem analyze_provider_failure_degrades (env : AnalyzeEnv) (req : AnalyzeRequest)
    (db : List AnalysisRow)
    (hdemo : ("demo-".data).isPrefixOf req.sessionId = false)
    (hauth : authPasses env req = true) :
    (env.openaiKey = none →
      (analyzePOST env req db).1
        = .ok (.mock (generateMockAnalysis req.userInfo env.rnd)) none true none) ∧
    (∀ k, env.openaiKey = some k →
      20 ≤ (normalizeTranscript req.transcript).2.length →
      env.provider = .content none →
      (analyzePOST env req db).1
        = .ok (.mock (generateMockAnalysis req.userInfo env.rnd))
            (some (generateAnalysisMetrics (normalizeTranscript req.transcript).1
              (jsOr req.duration 300)))
            true (some "Failed to parse AI analysis".data)) ∧
    (∀ k msg, env.openaiKey = some k →
      20 ≤ (normalizeTranscript req.transcript).2.length →
      env.provider = .unreachable msg →
      (analyzePOST env req db).1 = catastrophicResponse msg env.rnd) ∧
    (∀ k, env.openaiKey = some k →
      20 ≤ (normalizeTranscript req.transcript).2.length →
      env.provider = .empty →
      (analyzePOST env req db).1
        = catastrophicResponse "No analysis generated by OpenAI".data env.rnd) := by
  have hbase := analyzePOST_eq_authed env req db hdemo hauth
  refine ⟨?_, ?_, ?_, ?_⟩
  · intro hkey
    rw [hbase]
    unfold analyzeAuthed
    rw [hkey]
  · intro k hkey hlong hprov
    rw [hbase]
    unfold analyzeAuthed
    rw [hkey]
    have hgate : ¬((normalizeTranscript req.transcript).2 = []
        ∨ (normalizeTranscript req.transcript).2.length < 20) := by
      rintro (hnil | hlt)
      · rw [hnil] at hlong; simp at hlong
      · omega
    rw [if_neg hgate, hprov]
  · intro k msg hkey hlong hprov
    rw [hbase]
    unfold analyzeAuthed
    rw [hkey]
    have hgate : ¬((normalizeTranscript req.transcript).2 = []
        ∨ (normalizeTranscript req.transcript).2.length < 20) := by
      rintro (hnil | hlt)
      · rw [hnil] at hlong; simp at hlong
      · omega
    rw [if_neg hgate, hprov]
  · intro k hkey hlong hprov
    rw [hbase]
    unfold analyzeAuthed
    rw [hkey]
    have hgate : ¬((normalizeTranscript req.transcript).2 = []
        ∨ (normalizeTranscript req.transcript).2.length < 20) := by
      rintro (hnil | hlt)
      · rw [hnil] at hlong; simp at hlong
      · omega
    rw [if_neg hgate, hprov]

/-- Witness for C2 (amended): on a concrete authorized request with a real
26-character transcript and an unparseable provider reply, the response is the
HTTP-success mock body carrying the real-transcript metrics with the
300-second default. -/
theorem analyze_provider_failure_degrades_witness :
    (analyzePOST
      ⟨some "k".data, some "s".data, ⟨true, true, true⟩, .content none,
        ⟨false, 0, 0, 0, 0⟩, true⟩
      ⟨"abc123".data, some (.str "abcdefghijklmnopqrstuvwxyz".data), some 60, none,
        none, some "s".data⟩ []).1
      = .ok (.mock (generateMockAnalysis none ⟨false, 0, 0, 0, 0⟩))
          (some (generateAnalysisMetrics
            (normalizeTranscript (some (.str "abcdefghijklmnopqrstuvwxyz".data))).1
            (jsOr (some 60) 300)))
          true (some "Failed to parse AI analysis".data) :=
  (analyze_provider_failure_degrades _ _ _ (by decide) (by decide)).2.1
    "k".data rfl (by decide) rfl

/-- C6 counterexample: `'temp-abc'` is a Local-domain identifier per the
Identity Resolver (the `temp-` prefix rule, as `isDemoSession` confirms), yet
an analyze call for it with no credential at all is rejected with
401 `Authorization required`: the handler's authentication short-circuit tests
only the `demo-` prefix. -/
theorem analyze_local_no_credential_cex :
    isDemoSession (some "temp-abc".data) none = true ∧
    (analyzePOST
      ⟨some "k".data, none, ⟨true, true, true⟩, .empty, ⟨false, 0, 0, 0, 0⟩, true⟩
      ⟨"temp-abc".data, some (.str "abcdefghijklmnopqrstuvwxyz".data), some 60, none,
        none, none⟩ []).1
      = .err 401 "Authorization required".data :=
  ⟨by decide, rfl⟩

/-- C6 amended: only the `demo-` prefix triggers the authentication
short-circuit: an analyze request whose session id starts with `demo-` and
that carries no credential at all succeeds without an Unauthorized error and
proceeds to metrics and (mock) analysis; Local-domain identifiers recognized
only via the `temp-` prefix or the `demo` substring still require a
credential. -/
theorem analyze_demo_prefix_no_credential (env : AnalyzeEnv) (req : AnalyzeRequest)
    (db : List AnalysisRow)
    (hdemo : ("demo-".data).isPrefixOf req.sessionId = true)
    (_hnoauth : req.authHeader = none) (_hnosecret : req.serverSecretHeader = none) :
    (analyzePOST env req db).1
      = .ok (.mock (generateMockAnalysis req.userInfo env.rnd))
          (some (generateAnalysisMetrics (demoTranscriptArray req.transcript)
            (jsOr req.duration 300)))
          true none := by
  unfold analyzePOST
  rw [if_pos hdemo]

/-- Witness for C6 (amended): the concrete `demo-123` analyze call with no
authorization header and no server secret succeeds with a mock analysis. -/
theorem analyze_demo_prefix_no_credential_witness :
    (analyzePOST
      ⟨some "k".data, some "s".data, ⟨false, false, false⟩, .empty,
        ⟨false, 0, 0, 0, 0⟩, true⟩
      ⟨"demo-123".data, none, none, none, none, none⟩ []).1
      = .ok (.mock (generateMockAnalysis none ⟨false, 0, 0, 0, 0⟩))
          (some (generateAnalysisMetrics (demoTranscriptArray none) (jsOr none 300)))
          true none :=
  analyze_demo_prefix_no_credential _ _ _ (by decide) rfl rfl

/-- C7: every analyze request whose concatenated transcript text is shorter
than 20 characters and which is not rejected by the authorization gate (demo
prefix, server secret, or valid bearer) receives a response with
`isDemo = true` carrying a mock AnalysisResult in which every mandatory and
optional field is populated — never a null or partial result. -/
theorem analyze_short_transcript_mock (env : AnalyzeEnv) (req : AnalyzeRequest)
    (db : List AnalysisRow)
    (hauth : ("demo-".data).isPrefixOf req.sessionId = true ∨ authPasses env req = true)
    (hshort : (normalizeTranscript req.transcript).2.length < 20) :
    ∃ (m : MockAnalysis) (mo : Option Metrics),
      (analyzePOST env req db).1 = .ok (.mock m) mo true none ∧ fullyPopulated m = true := by
  by_cases hdemo : ("demo-".data).isPrefixOf req.sessionId = true
  · refine ⟨generateMockAnalysis req.userInfo env.rnd,
      some (generateAnalysisMetrics (demoTranscriptArray req.transcript)
        (jsOr req.duration 300)), ?_, generateMockAnalysis_fullyPopulated _ _⟩
    unfold analyzePOST
    rw [if_pos hdemo]
  · have hauth' : authPasses env req = true := by
      rcases hauth with h | h
      · exact absurd h hdemo
      · exact h
    rw [analyzePOST_eq_authed env req db (by rw [← Bool.not_eq_true]; exact hdemo) hauth']
    unfold analyzeAuthed
    cases hkey : env.openaiKey with
    | none =>
      exact ⟨generateMockAnalysis req.userInfo env.rnd, none, rfl,
        generateMockAnalysis_fullyPopulated _ _⟩
    | some k =>
      rw [if_pos (Or.inr hshort)]
      exact ⟨generateMockAnalysis req.userInfo env.rnd,
        some (generateAnalysisMetrics createMockTranscript (jsOr req.duration 300)), rfl,
        generateMockAnalysis_fullyPopulated _ _⟩

/-- Witness for C7: a concrete authorized request whose transcript text has
length 10 yields `isDemo = true` with a fully populated mock analysis. -/
theorem analyze_short_transcript_mock_witness :
    ∃ (m : MockAnalysis) (mo : Option Metrics),
      (analyzePOST
        ⟨some "k".data, some "s".data, ⟨true, true, true⟩, .empty,
          ⟨true, 2, 2, 2, 2⟩, true⟩
        ⟨"abc123".data, some (.str "abcdefghij".data), some 42, none,
          none, some "s".data⟩ []).1 = .ok (.mock m) mo true none ∧
      fullyPopulated m = true :=
  analyze_short_transcript_mock _ _ _ (Or.inr (by decide)) (by decide)

/-- C9: for every valid end-session request (non-empty session id, positive
duration), the end-transition acknowledges success to the caller regardless of
whether the subsequently triggered analysis call succeeds, returns a non-2xx
status, or throws: only the `analysis_triggered` flag records the outcome, the response stays the same success payload. -/
theorem endSession_ack_independent_of_trigger (env : EndEnv) (req : EndSessionReq)
    (hvalid : validEndSession req = true) :
    (("demo-".data).isPrefixOf req.session_id = true →
      ∀ o : TriggerOutcome,
        endSessionPOST { env with trigger := o } req
          = .okDemo req.session_id req.duration_seconds (jsCeil (req.duration_seconds / 60))
              env.demoScore (hasTranscriptItems req.transcript) ∧
        isEndSuccess (endSessionPOST { env with trigger := o } req) = true) ∧
    (("demo-".data).isPrefixOf req.session_id = false →
      req.authHeader.isSome = true → env.userOk = true → env.profileOk = true →
      env.sessionFound = true → env.sessionStatus = "active".data → env.updateOk = true →
      ∀ o : TriggerOutcome,
        endSessionPOST { env with trigger := o } req
          = .okReal req.session_id req.duration_seconds
              ((jsCeil (req.duration_seconds / 60) : ℚ) * (1 / 10))
              (jsCeil (req.duration_seconds / 60))
              (hasTranscriptItems req.transcript)
              (hasTranscriptItems req.transcript && (o == TriggerOutcome.ok))
              (if req.transcript.isSome then "analyzing".data else "completed".data) ∧
        isEndSuccess (endSessionPOST { env with trigger := o } req) = true) := by
  constructor
  · intro hdemo o
    have heq : endSessionPOST { env with trigger := o } req
        = .okDemo req.session_id req.duration_seconds (jsCeil (req.duration_seconds / 60))
            env.demoScore (hasTranscriptItems req.transcript) := by
      unfold endSessionPOST
      rw [if_neg (by rw [hvalid]; simp), if_pos hdemo]
    exact ⟨heq, by rw [heq]; rfl⟩
  · intro hdemo hsome hu hp hsf hst hup o
    obtain ⟨a, ha⟩ := Option.isSome_iff_exists.mp hsome
    obtain ⟨u, p, sf, st, upd, tr, ds⟩ := env
    simp only at hu hp hsf hst hup
    subst hu; subst hp; subst hsf; subst hup; subst hst
    have heq : endSessionPOST ⟨true, true, true, "active".data, true, o, ds⟩ req
        = .okReal req.session_id req.duration_seconds
            ((jsCeil (req.duration_seconds / 60) : ℚ) * (1 / 10))
            (jsCeil (req.duration_seconds / 60))
            (hasTranscriptItems req.transcript)
            (hasTranscriptItems req.transcript && (o == TriggerOutcome.ok))
            (if req.transcript.isSome then "analyzing".data else "completed".data) := by
      unfold endSessionPOST
      rw [if_neg (by rw [hvalid]; simp), if_neg (by simp [hdemo]), ha]
      simp
    exact ⟨heq, by rw [heq]; rfl⟩

/-- Witness for C9: a concrete valid end-session call for an owned active
session acknowledges success even when the analysis trigger throws. -/
theorem endSession_ack_independent_of_trigger_witness :
    isEndSuccess (endSessionPOST
      { (⟨true, true, true, "active".data, true, TriggerOutcome.ok, 4⟩ : EndEnv) with
          trigger := TriggerOutcome.threw }
      ⟨"sess-1".data, 185,
        some [⟨"user".data, "hello let us look at the product".data⟩], none,
        some "Bearer tok".data⟩) = true :=
  ((endSession_ack_independent_of_trigger _ _ (by decide)).2 (by decide) (by decide)
    rfl rfl rfl rfl rfl TriggerOutcome.threw).2

/-- C10 (implicit): on the analyze operation's demo short-circuit and its
degraded paths (short transcript, parse failure), an absent or zero duration
is replaced by the 300-second default before metrics are computed — the
returned metrics (hence `speakingPaceWpm`) are computed as if the conversation
lasted 300 seconds — whereas on the main provider-success path the same
absent/zero duration defaults to 0 and the returned `speakingPaceWpm` is 0. -/
theorem analyze_duration_default (env : AnalyzeEnv) (req : AnalyzeRequest)
    (db : List AnalysisRow)
    (hdur : req.duration = none ∨ req.duration = some 0) :
    (("demo-".data).isPrefixOf req.sessionId = true →
      metricsOf (analyzePOST env req db).1
        = some (generateAnalysisMetrics (demoTranscriptArray req.transcript) 300)) ∧
    (("demo-".data).isPrefixOf req.sessionId = false → authPasses env req = true →
      ∀ k, env.openaiKey = some k →
      ((normalizeTranscript req.transcript).2.length < 20 →
        metricsOf (analyzePOST env req db).1
          = some (generateAnalysisMetrics createMockTranscript 300)) ∧
      (20 ≤ (normalizeTranscript req.transcript).2.length →
        env.provider = .content none →
        metricsOf (analyzePOST env req db).1
          = some (generateAnalysisMetrics (normalizeTranscript req.transcript).1 300)) ∧
      (∀ a, 20 ≤ (normalizeTranscript req.transcript).2.length →
        env.provider = .content (some a) →
        metricsOf (analyzePOST env req db).1
          = some (generateAnalysisMetrics (normalizeTranscript req.transcript).1 0) ∧
        (generateAnalysisMetrics (normalizeTranscript req.transcript).1 0).speakingPaceWpm
          = 0)) := by
  have h300 : jsOr req.duration 300 = 300 := by
    rcases hdur with h | h <;> simp [jsOr, h]
  have h0 : jsOr req.duration 0 = 0 := by
    rcases hdur with h | h <;> simp [jsOr, h]
  constructor
  · intro hdemo
    unfold analyzePOST
    rw [if_pos hdemo, h300]
    rfl
  · intro hdemo hauth k hkey
    have hbase := analyzePOST_eq_authed env req db hdemo hauth
    refine ⟨?_, ?_, ?_⟩
    · intro hshort
      rw [hbase]
      unfold analyzeAuthed
      rw [hkey, if_pos (Or.inr hshort), h300]
      rfl
    · intro hlong hprov
      rw [hbase]
      unfold analyzeAuthed
      have hgate : ¬((normalizeTranscript req.transcript).2 = []
          ∨ (normalizeTranscript req.transcript).2.length < 20) := by
        rintro (hnil | hlt)
        · rw [hnil] at hlong; simp at hlong
        · omega
      rw [hkey, if_neg hgate, hprov, h300]
      rfl
    · intro a hlong hprov
      have hgate : ¬((normalizeTranscript req.transcript).2 = []
          ∨ (normalizeTranscript req.transcript).2.length < 20) := by
        rintro (hnil | hlt)
        · rw [hnil] at hlong; simp at hlong
        · omega
      constructor
      · rw [hbase]
        unfold analyzeAuthed
        rw [hkey, if_neg hgate, hprov, h0]
        simp [metricsOf]
      · simp [generateAnalysisMetrics, calculateSpeakingPace]

/-- Witness for C10: a concrete demo-path analyze call with an absent duration
returns metrics computed over the mock transcript with the 300-second
default. -/
theorem analyze_duration_default_witness :
    metricsOf (analyzePOST
      ⟨some "k".data, none, ⟨false, false, false⟩, .empty, ⟨true, 0, 0, 0, 0⟩, true⟩
      ⟨"demo-77".data, none, none, none, none, none⟩ []).1
      = some (generateAnalysisMetrics (demoTranscriptArray none) 300) :=
  (analyze_duration_default _ _ _ (Or.inl rfl)).1 (by decide)
